import Mathlib

/-!
Verification of the Dhaan advanced algo trading system against its
natural-language specification.

The Python sources are shallowly embedded: `Decimal` values become `ℚ`
(exact rational arithmetic), Python `int` becomes `ℤ`, Python dicts become
association lists with in-place replacement on insert, and fallible
operations return an explicit result alongside the (possibly unchanged)
state.  Every definition below is translated from a named function of the
repository; file and line references are given in the doc comments.
-/

namespace Dhaan

/-- `core/entities.py` `OrderType`. -/
inductive OrderType where
  | MARKET | LIMIT | STOP_LOSS | STOP_LOSS_MARKET
deriving DecidableEq, Repr

/-- `core/entities.py` `OrderSide`. -/
inductive OrderSide where
  | BUY | SELL
deriving DecidableEq, Repr

/-- `core/entities.py` `OrderStatus`. -/
inductive OrderStatus where
  | PENDING | SUBMITTED | PARTIALLY_FILLED | FILLED | EXECUTED | CANCELLED | REJECTED
deriving DecidableEq, Repr

/-- `core/entities.py` `Order` (the fields the paper-trading broker reads
and writes). -/
structure Order where
  symbol : String
  side : OrderSide
  order_type : OrderType
  quantity : ℤ
  price : ℚ
  status : OrderStatus := .PENDING
  broker_order_id : Option String := none
  executed_price : Option ℚ := none
  executed_quantity : Option ℤ := none
deriving DecidableEq, Repr

/-- `paper_trading_broker_provider.py` `VirtualPosition`. -/
structure VirtualPosition where
  symbol : String
  quantity : ℤ
  entry_price : ℚ
  side : OrderSide
  unrealized_pnl : ℚ := 0
  realized_pnl : ℚ := 0
deriving DecidableEq, Repr

/-- Python `dict` lookup `d[k]` / `k in d`. -/
def dictLookup {α : Type} : List (String × α) → String → Option α
  | [], _ => none
  | (k', v) :: rest, k => if k = k' then some v else dictLookup rest k

/-- Python `dict` assignment `d[k] = v`: replaces in place, else appends. -/
def dictInsert {α : Type} : List (String × α) → String → α → List (String × α)
  | [], k, v => [(k, v)]
  | (k', v') :: rest, k, v =>
      if k = k' then (k, v) :: rest else (k', v') :: dictInsert rest k v

/-- Python `del d[k]`. -/
def dictErase {α : Type} : List (String × α) → String → List (String × α)
  | [], _ => []
  | (k', v') :: rest, k =>
      if k = k' then rest else (k', v') :: dictErase rest k

/-- The mutable state of `PaperTradingBrokerProvider`
(`paper_trading_broker_provider.py`, lines 44-68). -/
structure BrokerState where
  virtual_balance : ℚ
  initial_balance : ℚ
  available_margin : ℚ
  used_margin : ℚ
  virtual_positions : List (String × VirtualPosition)
  virtual_orders : List (String × Order)
  order_history : List Order
  commission_per_trade : ℚ
  slippage_factor : ℚ
  total_trades : ℕ
  winning_trades : ℕ
  losing_trades : ℕ
  total_commission_paid : ℚ
deriving DecidableEq, Repr

/-- `PaperTradingBrokerProvider.__init__`: fresh ledger from the config
values `paper_trading_balance`, `paper_trading_commission`,
`paper_trading_slippage`. -/
def initState (balance commission slippage : ℚ) : BrokerState :=
  { virtual_balance := balance
    initial_balance := balance
    available_margin := balance
    used_margin := 0
    virtual_positions := []
    virtual_orders := []
    order_history := []
    commission_per_trade := commission
    slippage_factor := slippage
    total_trades := 0
    winning_trades := 0
    losing_trades := 0
    total_commission_paid := 0 }

/-- `_calculate_required_margin` (lines 415-420):
`order.price * order.quantity * Decimal('0.20')`. -/
def requiredMargin (o : Order) : ℚ :=
  o.price * (o.quantity : ℚ) * (20 / 100)

/-- `_apply_slippage` (lines 422-429). -/
def applySlippage (slippage : ℚ) (price : ℚ) (side : OrderSide) : ℚ :=
  let slippage_amount := price * slippage
  match side with
  | .BUY => price + slippage_amount
  | .SELL => price - slippage_amount

/-- `_execute_virtual_order` (lines 437-512).  The order passed in already
carries the (possibly slippage-adjusted) price stored by `place_order`. -/
def executeVirtualOrder (st : BrokerState) (order : Order) (oid : String) :
    BrokerState :=
  let order := { order with
    status := .EXECUTED
    executed_price := some order.price
    executed_quantity := some order.quantity }
  let commission := st.commission_per_trade
  let st := { st with
    total_commission_paid := st.total_commission_paid + commission }
  let order_value := order.price * (order.quantity : ℚ)
  let st :=
    match order.side with
    | .BUY =>
        let total_cost := order_value + commission
        let st := { st with virtual_balance := st.virtual_balance - total_cost }
        match dictLookup st.virtual_positions order.symbol with
        | some existing_pos =>
            let total_quantity := existing_pos.quantity + order.quantity
            let weighted_avg_price :=
              (existing_pos.entry_price * (existing_pos.quantity : ℚ) +
                order.price * (order.quantity : ℚ)) / (total_quantity : ℚ)
            { st with virtual_positions :=
                (dictInsert st.virtual_positions order.symbol
                  { existing_pos with
                      quantity := total_quantity
                      entry_price := weighted_avg_price }) }
        | none =>
            { st with virtual_positions :=
                (dictInsert st.virtual_positions order.symbol
                  { symbol := order.symbol
                    quantity := order.quantity
                    entry_price := order.price
                    side := order.side }) }
    | .SELL =>
        let total_proceeds := order_value - commission
        let st := { st with virtual_balance := st.virtual_balance + total_proceeds }
        match dictLookup st.virtual_positions order.symbol with
        | some existing_pos =>
            if existing_pos.quantity ≤ order.quantity then
              let pnl := (order.price - existing_pos.entry_price) *
                (existing_pos.quantity : ℚ) - commission
              let st :=
                if pnl > 0 then { st with winning_trades := st.winning_trades + 1 }
                else { st with losing_trades := st.losing_trades + 1 }
              { st with virtual_positions :=
                  (dictErase st.virtual_positions order.symbol) }
            else
              let partial_pnl := (order.price - existing_pos.entry_price) *
                (order.quantity : ℚ) - commission
              { st with virtual_positions :=
                  (dictInsert st.virtual_positions order.symbol
                    { existing_pos with
                        quantity := existing_pos.quantity - order.quantity
                        realized_pnl := existing_pos.realized_pnl + partial_pnl }) }
        | none => st
  let required_margin := requiredMargin order
  { st with
    used_margin := st.used_margin - required_margin
    available_margin := st.available_margin + required_margin
    total_trades := st.total_trades + 1
    order_history := st.order_history ++ [order]
    virtual_orders := dictErase st.virtual_orders oid }

/-- Result of `place_order`. -/
inductive PlaceResult where
  | ok (oid : String)
  | insufficientMargin
deriving DecidableEq, Repr

/-- `place_order` (lines 72-130), with the virtual order id `oid` passed in
(the Python code draws it from `uuid4`).  Execution is immediate:
`_schedule_order_execution` (lines 431-435) calls `_execute_virtual_order`
directly. -/
def placeOrder (st : BrokerState) (order : Order) (oid : String) :
    BrokerState × PlaceResult :=
  let required_margin := requiredMargin order
  if required_margin > st.available_margin then
    (st, .insufficientMargin)
  else
    let order := { order with broker_order_id := some oid, status := .SUBMITTED }
    let order :=
      if order.order_type = .MARKET then
        { order with price := applySlippage st.slippage_factor order.price order.side }
      else order
    let st := { st with
      virtual_orders := dictInsert st.virtual_orders oid order
      available_margin := st.available_margin - required_margin
      used_margin := st.used_margin + required_margin }
    (executeVirtualOrder st order oid, .ok oid)

/-- `cancel_order` (lines 132-173). -/
def cancelOrder (st : BrokerState) (oid : String) : BrokerState × Bool :=
  match dictLookup st.virtual_orders oid with
  | none => (st, false)
  | some order =>
      if order.status = .SUBMITTED ∨ order.status = .PENDING then
        let order := { order with status := .CANCELLED }
        let required_margin := requiredMargin order
        ({ st with
            available_margin := st.available_margin + required_margin
            used_margin := st.used_margin - required_margin
            order_history := st.order_history ++ [order]
            virtual_orders := dictErase st.virtual_orders oid }, true)
      else (st, false)

/-- `get_order_status` (lines 175-201); `none` is the `"NOT_FOUND"` case. -/
def getOrderStatus (st : BrokerState) (oid : String) : Option OrderStatus :=
  match dictLookup st.virtual_orders oid with
  | some order => some order.status
  | none =>
      (st.order_history.find? (fun o => o.broker_order_id = some oid)).map
        (·.status)

/-- `get_paper_trading_stats` (line 373): the reported `realized_pnl` is
`virtual_balance - initial_balance`. -/
def statsRealizedPnl (st : BrokerState) : ℚ :=
  st.virtual_balance - st.initial_balance

/-- A broker operation of the external interface. -/
inductive BrokerOp where
  | place (order : Order) (oid : String)
  | cancel (oid : String)

/-- One broker operation, as a state transformer. -/
def brokerStep (st : BrokerState) : BrokerOp → BrokerState
  | .place order oid => (placeOrder st order oid).1
  | .cancel oid => (cancelOrder st oid).1

/-- A sequence of broker operations from a given state. -/
def runOps (st : BrokerState) : List BrokerOp → BrokerState
  | [] => st
  | op :: ops => runOps (brokerStep st op) ops

/-- States reachable from a fresh ledger by broker operations. -/
def Reachable (st : BrokerState) : Prop :=
  ∃ balance commission slippage ops,
    st = runOps (initState balance commission slippage) ops

/-- Concrete market BUY order of 10 units at ₹100. -/
def marketBuy10at100 : Order :=
  { symbol := "TCS", side := .BUY, order_type := .MARKET, quantity := 10, price := 100 }

/-- Concrete market SELL order of 10 units at ₹100. -/
def marketSell10at100 : Order :=
  { symbol := "TCS", side := .SELL, order_type := .MARKET, quantity := 10, price := 100 }

/-- Every single broker operation conserves
`available_margin + used_margin` exactly, whatever the state. -/
theorem brokerStep_margin_sum (st : BrokerState) (op : BrokerOp) :
    (brokerStep st op).available_margin + (brokerStep st op).used_margin =
      st.available_margin + st.used_margin := by
  cases op with
  | place o oid =>
      simp only [brokerStep, placeOrder]
      split
      · rfl
      · simp only [executeVirtualOrder]
        repeat' split
        all_goals simp
  | cancel oid =>
      simp only [brokerStep, cancelOrder]
      split
      · rfl
      · split
        · simp
        · rfl

/-- Margin conservation over whole operation sequences. -/
theorem runOps_margin_sum (ops : List BrokerOp) (st : BrokerState) :
    (runOps st ops).available_margin + (runOps st ops).used_margin =
      st.available_margin + st.used_margin := by
  induction ops generalizing st with
  | nil => rfl
  | cons op ops ih =>
      simp only [runOps]
      rw [ih, brokerStep_margin_sum]

/-- C1.  The claimed invariant `used_margin ≥ 0` FAILS on the code: on a
fresh ledger (balance 100000, commission 20, slippage 0.001 — the config
defaults), placing a MARKET BUY of 10 units at ₹100 reserves margin 200
computed at the pre-slippage price (`place_order` line 91) but the
immediate execution releases margin 200.2 computed at the slipped price
100.1 (`_execute_virtual_order` line 500), leaving `used_margin = -0.2 < 0`.
The other half of the invariant, `available_margin + used_margin == total
allocatable capital`, does still hold (here the sum stays 100000;
`brokerStep_margin_sum` proves it in general). -/
theorem used_margin_negative_after_market_buy_with_slippage :
    (brokerStep (initState 100000 20 (1 / 1000))
        (.place marketBuy10at100 "PAPER_A")).used_margin < 0 ∧
    (brokerStep (initState 100000 20 (1 / 1000))
          (.place marketBuy10at100 "PAPER_A")).available_margin +
        (brokerStep (initState 100000 20 (1 / 1000))
            (.place marketBuy10at100 "PAPER_A")).used_margin = 100000 := by
  norm_num [brokerStep, placeOrder, executeVirtualOrder, initState,
    marketBuy10at100, requiredMargin, applySlippage, dictLookup, dictInsert,
    dictErase]

/-- C2.  If the required margin `price * quantity * 0.20` strictly exceeds
`available_margin`, then `place_order` fails with `InsufficientMargin` and
returns the ledger completely unchanged (`place_order` lines 91-97 raise
before any mutation). -/
theorem place_order_insufficient_margin_is_pure_failure
    (st : BrokerState) (o : Order) (oid : String)
    (h : o.price * (o.quantity : ℚ) * (20 / 100) > st.available_margin) :
    placeOrder st o oid = (st, .insufficientMargin) := by
  have hm : requiredMargin o > st.available_margin := h
  simp [placeOrder, hm]

/-- Witness for C2: a BUY of 10 units at ₹100 needs margin 200, which
exceeds the ₹100 available on a tiny ledger; the call fails and the
state is returned untouched. -/
theorem place_order_insufficient_margin_is_pure_failure_witness :
    marketBuy10at100.price * (marketBuy10at100.quantity : ℚ) * (20 / 100) >
        (initState 100 20 0).available_margin ∧
    placeOrder (initState 100 20 0) marketBuy10at100 "PAPER_A" =
      (initState 100 20 0, .insufficientMargin) :=
  ⟨by norm_num [marketBuy10at100, initState],
   place_order_insufficient_margin_is_pure_failure
     (initState 100 20 0) marketBuy10at100 "PAPER_A"
     (by norm_num [marketBuy10at100, initState])⟩

/-- Looking up the key just inserted into a Python dict returns the
inserted value. -/
theorem dictLookup_dictInsert_self {α : Type} (d : List (String × α))
    (k : String) (v : α) :
    dictLookup (dictInsert d k v) k = some v := by
  induction d with
  | nil => simp [dictInsert, dictLookup]
  | cons hd tl ih =>
      obtain ⟨k', v'⟩ := hd
      by_cases h : k = k' <;> simp [dictInsert, dictLookup, h, ih]

/-- The broker state after `place_order` of `marketBuy10at100` on a fresh
ledger with balance 100000, commission `c` and zero slippage (order id
`"A"`): the order executed at ₹100, a long position of 10 units exists,
and the margin ledger is back to rest. -/
def afterBuy (c : ℚ) : BrokerState :=
  { virtual_balance := 99000 - c
    initial_balance := 100000
    available_margin := 100000
    used_margin := 0
    virtual_positions := ([("TCS",
      { symbol := "TCS", quantity := 10, entry_price := 100, side := .BUY })])
    virtual_orders := []
    order_history := ([{
      symbol := "TCS", side := .BUY, order_type := .MARKET,
      quantity := 10, price := 100, status := .EXECUTED,
      broker_order_id := some "A", executed_price := some 100,
      executed_quantity := some 10 }])
    commission_per_trade := c
    slippage_factor := 0
    total_trades := 1
    winning_trades := 0
    losing_trades := 0
    total_commission_paid := c }

/-- The first leg of the round trip lands in `afterBuy c`. -/
theorem step1_eq (c : ℚ) :
    brokerStep (initState 100000 c 0) (.place marketBuy10at100 "A") =
      afterBuy c := by
  norm_num [brokerStep, placeOrder, executeVirtualOrder, initState,
    marketBuy10at100, requiredMargin, applySlippage, dictLookup, dictInsert,
    dictErase, afterBuy]
  ring

/-- The second leg (SELL 10 @ 100) restores the ledger fields the round
trip is measured on: balance drops by exactly the two commissions and the
position list empties. -/
theorem step2_fields (c : ℚ) :
    (brokerStep (afterBuy c) (.place marketSell10at100 "B")).virtual_balance =
        100000 - 2 * c ∧
    (brokerStep (afterBuy c) (.place marketSell10at100 "B")).virtual_positions = [] ∧
    (brokerStep (afterBuy c) (.place marketSell10at100 "B")).initial_balance =
        100000 := by
  norm_num [brokerStep, placeOrder, executeVirtualOrder, afterBuy,
    marketSell10at100, requiredMargin, applySlippage, dictLookup, dictInsert,
    dictErase]
  split <;>
    norm_num [dictErase, dictLookup, dictInsert] <;> ring

/-- C3.  On a fresh ledger with zero slippage, BUY 10 @ 100 followed by
SELL 10 @ 100 yields a reported realized P&L of exactly `-2 * commission`
(`get_paper_trading_stats` line 373 reports
`virtual_balance - initial_balance`), and the symbol is removed from the
open position set (`_execute_virtual_order` lines 482-492). -/
theorem round_trip_pnl_is_minus_two_commissions (c : ℚ) :
    statsRealizedPnl (runOps (initState 100000 c 0)
        [.place marketBuy10at100 "A", .place marketSell10at100 "B"]) =
      -(2 * c) ∧
    dictLookup (runOps (initState 100000 c 0)
        [.place marketBuy10at100 "A",
          .place marketSell10at100 "B"]).virtual_positions "TCS" = none := by
  have hrun : runOps (initState 100000 c 0)
      [.place marketBuy10at100 "A", .place marketSell10at100 "B"] =
      brokerStep (afterBuy c) (.place marketSell10at100 "B") := by
    simp only [runOps, step1_eq c]
  obtain ⟨hb, hp, hi⟩ := step2_fields c
  rw [hrun]
  constructor
  · simp only [statsRealizedPnl, hb, hi]
    ring
  · simp only [hp, dictLookup]

/-- Concrete second BUY of 10 units at ₹110 for the averaging scenario. -/
def buy10at110 : Order :=
  { symbol := "TCS", side := .BUY, order_type := .MARKET, quantity := 10,
    price := 110 }

/-- C4.  A BUY fill on a symbol that already has a long position merges
into it: the quantity becomes `old_qty + qty` and the entry price becomes
the quantity-weighted average
`(old_entry*old_qty + fill_price*qty) / (old_qty + qty)`
(`_execute_virtual_order` lines 459-466); every other field of the
position is untouched. -/
theorem buy_fill_merges_with_weighted_average_entry
    (st : BrokerState) (pos : VirtualPosition) (o : Order) (oid : String)
    (hpos : dictLookup st.virtual_positions o.symbol = some pos)
    (hside : o.side = .BUY) (hlong : pos.side = .BUY)
    (hq0 : 0 < pos.quantity) (hq : 0 < o.quantity) :
    dictLookup (executeVirtualOrder st o oid).virtual_positions o.symbol =
      some { pos with
        quantity := pos.quantity + o.quantity
        entry_price := ((pos.entry_price * (pos.quantity : ℚ) +
          o.price * (o.quantity : ℚ)) /
            ((pos.quantity : ℚ) + (o.quantity : ℚ))) } := by
  simp only [executeVirtualOrder, hside, hpos, dictLookup_dictInsert_self]
  norm_num

/-- Witness for C4: after BUY 10 @ 100 (the state `afterBuy 20`), a
further BUY 10 @ 110 fill yields quantity 20 at entry price 105. -/
theorem buy_fill_merges_with_weighted_average_entry_witness :
    dictLookup (afterBuy 20).virtual_positions buy10at110.symbol =
        some { symbol := "TCS", quantity := 10, entry_price := 100,
               side := .BUY } ∧
    dictLookup
        (executeVirtualOrder (afterBuy 20) buy10at110 "B").virtual_positions
        buy10at110.symbol =
      some { symbol := "TCS", quantity := 20, entry_price := 105,
             side := .BUY } := by
  constructor
  · norm_num [afterBuy, dictLookup, buy10at110]
  · have h := buy_fill_merges_with_weighted_average_entry (afterBuy 20)
      { symbol := "TCS", quantity := 10, entry_price := 100, side := .BUY }
      buy10at110 "B" (by norm_num [afterBuy, dictLookup, buy10at110]) rfl rfl
      (by norm_num) (by norm_num [buy10at110])
    rw [h]
    norm_num [buy10at110]

/-- A single broker operation keeps `virtual_orders` empty: `place_order`
inserts the order but its immediate execution deletes it again
(`_execute_virtual_order` lines 509-510), and `cancel_order` on an
unknown id is a no-op. -/
theorem virtual_orders_empty_step (st : BrokerState) (op : BrokerOp)
    (h : st.virtual_orders = []) : (brokerStep st op).virtual_orders = [] := by
  cases op with
  | place o oid =>
      simp only [brokerStep, placeOrder]
      split
      · exact h
      · simp only [executeVirtualOrder]
        repeat' split
        all_goals simp [h, dictInsert, dictErase]
  | cancel oid =>
      simp only [brokerStep, cancelOrder, h, dictLookup]

/-- `virtual_orders` stays empty along any operation sequence. -/
theorem runOps_virtual_orders_empty (ops : List BrokerOp) (st : BrokerState)
    (h : st.virtual_orders = []) : (runOps st ops).virtual_orders = [] := by
  induction ops generalizing st with
  | nil => exact h
  | cons op ops ih => exact ih _ (virtual_orders_empty_step st op h)

/-- In every reachable broker state, the pending-order book is empty,
because this implementation executes every placed order immediately. -/
theorem reachable_virtual_orders_empty (st : BrokerState)
    (h : Reachable st) : st.virtual_orders = [] := by
  obtain ⟨b, c, s, ops, rfl⟩ := h
  exact runOps_virtual_orders_empty ops _ rfl

/-- `find?` keeps returning the first hit when the list grows on the
right. -/
theorem find?_append_of_found {α : Type} (p : α → Bool) (l₁ l₂ : List α)
    (x : α) (h : l₁.find? p = some x) : (l₁ ++ l₂).find? p = some x := by
  induction l₁ with
  | nil => simp [List.find?] at h
  | cons a l ih =>
      by_cases hp : p a
      · rw [List.find?_cons_of_pos _ hp] at h
        simpa [List.find?_cons_of_pos _ hp] using h
      · rw [List.find?_cons_of_neg _ hp] at h
        simpa [List.find?_cons_of_neg _ hp] using ih h

/-- Broker operations only ever append to `order_history`. -/
theorem brokerStep_history_append (st : BrokerState) (op : BrokerOp) :
    ∃ tail, (brokerStep st op).order_history = st.order_history ++ tail := by
  cases op with
  | place o oid =>
      simp only [brokerStep, placeOrder]
      split
      · exact ⟨[], by simp⟩
      · simp only [executeVirtualOrder]
        repeat' split
        all_goals exact ⟨_, rfl⟩
  | cancel oid =>
      simp only [brokerStep, cancelOrder]
      split
      · exact ⟨[], by simp⟩
      · split
        · exact ⟨_, rfl⟩
        · exact ⟨[], by simp⟩

/-- C7.  Terminal order states are absorbing: in any reachable broker
state, once `get_order_status` reports `EXECUTED` or `CANCELLED` for an
order id, no further broker operation (place, with its immediate internal
execution, or cancel) ever changes that order's status — and the two
terminal states are mutually exclusive, so each terminated order ends in
exactly one of them. -/
theorem terminal_order_status_never_changes
    (st : BrokerState) (oid : String) (op : BrokerOp)
    (hreach : Reachable st)
    (hterm : getOrderStatus st oid = some .EXECUTED ∨
             getOrderStatus st oid = some .CANCELLED) :
    getOrderStatus (brokerStep st op) oid = getOrderStatus st oid ∧
    ¬(getOrderStatus st oid = some .EXECUTED ∧
      getOrderStatus st oid = some .CANCELLED) := by
  have hemp := reachable_virtual_orders_empty st hreach
  have hemp' := virtual_orders_empty_step st op hemp
  obtain ⟨tail, htail⟩ := brokerStep_history_append st op
  refine ⟨?_, ?_⟩
  · have hfind : ∃ x, st.order_history.find?
        (fun o => o.broker_order_id = some oid) = some x := by
      rcases hterm with h | h <;>
      · simp only [getOrderStatus, hemp, dictLookup, Option.map_eq_some'] at h
        obtain ⟨x, hx, _⟩ := h
        exact ⟨x, hx⟩
    obtain ⟨x, hx⟩ := hfind
    simp only [getOrderStatus, hemp, hemp', dictLookup, htail]
    rw [find?_append_of_found _ _ _ _ hx, hx]
  · rintro ⟨h1, h2⟩
    rw [h1] at h2
    simp at h2

/-- The state after one executed BUY, used to witness C7. -/
def oneBuyState : BrokerState :=
  brokerStep (initState 100000 20 0) (.place marketBuy10at100 "A")

/-- Witness for C7: order `"A"` has executed; cancelling it afterwards
does not change its reported status. -/
theorem terminal_order_status_never_changes_witness :
    (getOrderStatus oneBuyState "A" = some .EXECUTED ∨
     getOrderStatus oneBuyState "A" = some .CANCELLED) ∧
    (getOrderStatus (brokerStep oneBuyState (.cancel "A")) "A" =
        getOrderStatus oneBuyState "A" ∧
     ¬(getOrderStatus oneBuyState "A" = some .EXECUTED ∧
       getOrderStatus oneBuyState "A" = some .CANCELLED)) :=
  ⟨Or.inl (by norm_num [oneBuyState, brokerStep, placeOrder, executeVirtualOrder,
      initState, marketBuy10at100, requiredMargin, applySlippage, dictLookup,
      dictInsert, dictErase, getOrderStatus, List.find?]),
   terminal_order_status_never_changes oneBuyState "A" (.cancel "A")
     ⟨100000, 20, 0, [.place marketBuy10at100 "A"], rfl⟩
     (Or.inl (by norm_num [oneBuyState, brokerStep, placeOrder, executeVirtualOrder,
        initState, marketBuy10at100, requiredMargin, applySlippage, dictLookup,
        dictInsert, dictErase, getOrderStatus, List.find?]))⟩

/-- `market_scanner.py` `MarketScanner._calculate_market_sentiment`
(lines 427-444).  An opportunity is represented by its `signal_type`
string; `0.6` and `0.4` are the thresholds of the source. -/
def calculateMarketSentiment (opportunities : List String) : String :=
  if opportunities.isEmpty then "NEUTRAL"
  else
    let buy_signals := (opportunities.filter (fun s => s = "BUY")).length
    let total_signals := opportunities.length
    let buy_ratio : ℚ := (buy_signals : ℚ) / (total_signals : ℚ)
    if buy_ratio > 6 / 10 then "BULLISH"
    else if buy_ratio < 4 / 10 then "BEARISH"
    else "NEUTRAL"

/-- The sentiment rule exactly as the spec words it, as a function of the
BUY count and the total count: BULLISH above 0.6, BEARISH below 0.4,
NEUTRAL otherwise (ties included). -/
def sentimentOfBuyRatio (buys total : ℕ) : String :=
  if (buys : ℚ) / (total : ℚ) > 6 / 10 then "BULLISH"
  else if (buys : ℚ) / (total : ℚ) < 4 / 10 then "BEARISH"
  else "NEUTRAL"

/-- C5.  For every non-empty opportunity list the scanner's sentiment is
exactly the spec's buy-ratio rule, and on the claim's concrete lists it
returns BULLISH / BEARISH / NEUTRAL, with ratios of exactly 0.6, 0.5 and
0.4 all giving NEUTRAL. -/
theorem sentiment_matches_buy_ratio_rule (opportunities : List String)
    (h : opportunities ≠ []) :
    calculateMarketSentiment opportunities =
      sentimentOfBuyRatio
        ((opportunities.filter (fun s => s = "BUY")).length)
        opportunities.length ∧
    calculateMarketSentiment ["BUY", "BUY", "BUY", "SELL"] = "BULLISH" ∧
    calculateMarketSentiment ["BUY", "SELL", "SELL", "SELL"] = "BEARISH" ∧
    calculateMarketSentiment ["BUY", "BUY", "SELL", "SELL"] = "NEUTRAL" ∧
    calculateMarketSentiment ["BUY", "BUY", "BUY", "SELL", "SELL"] = "NEUTRAL" ∧
    calculateMarketSentiment ["BUY", "BUY", "SELL", "SELL", "SELL"] = "NEUTRAL" := by
  have hne : opportunities.isEmpty = false := by
    cases opportunities with
    | nil => exact absurd rfl h
    | cons a l => rfl
  refine ⟨?_, ?_, ?_, ?_, ?_, ?_⟩
  · simp only [calculateMarketSentiment, sentimentOfBuyRatio, hne,
      Bool.false_eq_true, if_false]
  all_goals simp [calculateMarketSentiment, sentimentOfBuyRatio]
  all_goals norm_num

/-- Witness for C5 at the non-empty list `[BUY, BUY, BUY, SELL]`. -/
theorem sentiment_matches_buy_ratio_rule_witness :
    (["BUY", "BUY", "BUY", "SELL"] ≠ ([] : List String)) ∧
    (calculateMarketSentiment ["BUY", "BUY", "BUY", "SELL"] =
      sentimentOfBuyRatio
        ((["BUY", "BUY", "BUY", "SELL"].filter (fun s => s = "BUY")).length)
        (["BUY", "BUY", "BUY", "SELL"] : List String).length) :=
  ⟨by simp,
   (sentiment_matches_buy_ratio_rule ["BUY", "BUY", "BUY", "SELL"] (by simp)).1⟩

/-- C10.  On the empty opportunity list, `_calculate_market_sentiment`
returns NEUTRAL through the early guard (lines 429-430), never reaching
the `buy_ratio` division. -/
theorem empty_scan_sentiment_is_neutral :
    calculateMarketSentiment [] = "NEUTRAL" := by
  simp [calculateMarketSentiment]

/-- Python `int()` applied to a non-negative `Decimal` quotient:
truncation toward zero. -/
def pythonInt (q : ℚ) : ℤ := Int.tdiv q.num (q.den : ℤ)

/-- The two `RiskManagementException` raises of
`RiskManager.calculate_position_size`. -/
inductive RiskError where
  | invalidParameters
  | samePrices
deriving DecidableEq, Repr

/-- `risk_manager.py` `RiskManager.calculate_position_size` (lines 59-113),
parameterised by the configuration values `position_risk_percent` and
`max_position_size` the manager reads in `__init__`. -/
def calculate_position_size (position_risk_percent : ℚ) (max_position_size : ℤ)
    (entry_price stop_loss available_capital : ℚ) : Except RiskError ℤ :=
  if entry_price ≤ 0 ∨ stop_loss ≤ 0 ∨ available_capital ≤ 0 then
    .error .invalidParameters
  else
    let risk_per_share := |entry_price - stop_loss|
    if risk_per_share = 0 then .error .samePrices
    else
      let risk_amount := available_capital * (position_risk_percent / 100)
      let position_size := pythonInt (risk_amount / risk_per_share)
      let position_size :=
        if position_size > max_position_size then max_position_size
        else position_size
      let position_size := if position_size < 1 then 1 else position_size
      .ok position_size

/-- On non-negative rationals, Python truncation agrees with `⌊·⌋`. -/
theorem pythonInt_eq_floor (q : ℚ) (h : 0 ≤ q) : pythonInt q = ⌊q⌋ := by
  rw [pythonInt, Int.tdiv_eq_ediv (Rat.num_nonneg.mpr h) (by positivity),
    Rat.floor_def]

/-- C6.  For positive inputs, `calculate_position_size` returns
`floor(available_capital * risk_per_trade / |entry - stop|)` clamped into
`[1, max_position_size]`, and fails with `RiskManagementException` when
entry and stop coincide (lines 81-98). -/
theorem position_size_is_clamped_floor_of_risk_quotient
    (prc : ℚ) (mx : ℤ) (e s cap : ℚ)
    (he : 0 < e) (hs : 0 < s) (hcap : 0 < cap)
    (hprc : 0 ≤ prc) (hmx : 1 ≤ mx) :
    (e ≠ s → calculate_position_size prc mx e s cap =
        .ok (max 1 (min mx ⌊(cap * (prc / 100)) / |e - s|⌋))) ∧
    (e = s → calculate_position_size prc mx e s cap = .error .samePrices) := by
  constructor
  · intro hne
    have habs : |e - s| ≠ 0 := by
      simp [sub_eq_zero, hne]
    have hq : (0:ℚ) ≤ cap * (prc / 100) / |e - s| := by positivity
    rw [calculate_position_size]
    rw [if_neg (by push_neg; exact ⟨he, hs, hcap⟩)]
    simp only [habs, if_false]
    rw [pythonInt_eq_floor _ hq]
    congr 1
    rcases le_or_lt (⌊cap * (prc / 100) / |e - s|⌋) mx with hle | hgt
    · rw [if_neg (not_lt.mpr hle), min_eq_right hle]
      rcases le_or_lt 1 (⌊cap * (prc / 100) / |e - s|⌋) with h1 | h1
      · rw [if_neg (not_lt.mpr h1), max_eq_right h1]
      · rw [if_pos h1, max_eq_left (le_of_lt h1)]
    · rw [if_pos hgt, min_eq_left (le_of_lt hgt), if_neg (not_lt.mpr hmx),
        max_eq_right hmx]
  · intro heq
    rw [calculate_position_size, if_neg (by push_neg; exact ⟨he, hs, hcap⟩)]
    simp [heq]

/-- Witness for C6: entry 100, stop 98, capital 100000 at 2% risk yields
quantity 1000 (max position size 10000, so the clamp does not bite). -/
theorem position_size_is_clamped_floor_of_risk_quotient_witness :
    ((0:ℚ) < 100 ∧ (0:ℚ) < 98 ∧ (0:ℚ) < 100000 ∧ (0:ℚ) ≤ 2 ∧ (1:ℤ) ≤ 10000 ∧
      (100:ℚ) ≠ 98) ∧
    calculate_position_size 2 10000 100 98 100000 = .ok 1000 := by
  refine ⟨by norm_num, ?_⟩
  have h := (position_size_is_clamped_floor_of_risk_quotient 2 10000 100 98
    100000 (by norm_num) (by norm_num) (by norm_num) (by norm_num)
    (by norm_num)).1 (by norm_num)
  rw [h]
  norm_num [abs_of_pos]

/-- `market_scanner.py` / `strategy_paper_trading_manager.py`
`TradingOpportunity` (the fields the paper-trading manager reads). -/
structure TradingOpportunity where
  symbol : String
  strategy_id : String
  signal_type : String
  confidence_score : ℚ
  risk_reward_ratio : ℚ
  entry_price : ℚ
  stop_loss : ℚ
  target_price : ℚ
deriving DecidableEq, Repr

/-- `strategy_paper_trading_manager.py` `StrategyPerformance` (the fields
`_execute_paper_trade` updates). -/
structure StrategyPerformance where
  strategy_id : String
  strategy_name : String
  total_trades : ℕ := 0
  active_positions : ℕ := 0
deriving DecidableEq, Repr

/-- `strategy_paper_trading_manager.py` `StrategyTrade` (entry-time
fields; exit fields and timestamps omitted, they are never written on the
paths modelled here). -/
structure StrategyTrade where
  trade_id : String
  strategy_id : String
  symbol : String
  order_side : OrderSide
  entry_price : ℚ
  quantity : ℤ
  status : String := "OPEN"
deriving DecidableEq, Repr

/-- The mutable state of `StrategyPaperTradingManager` (lines 74-88) with
its fixed configuration (`max_position_size = 10000`,
`max_positions_per_strategy = 3`, `risk_per_trade = 0.02`) kept as
fields. -/
structure ManagerState where
  paper_broker : BrokerState
  strategy_performances : List (String × StrategyPerformance)
  strategy_trades : List StrategyTrade
  active_trades : List (String × StrategyTrade)
  max_position_size : ℚ
  max_positions_per_strategy : ℕ
  risk_per_trade : ℚ
deriving DecidableEq, Repr

/-- `_validate_trade_risk` (lines 210-230).  `get_account_balance` reports
the broker's `available_margin` field unchanged
(`paper_trading_broker_provider.py` line 304). -/
def validateTradeRisk (ms : ManagerState) (opp : TradingOpportunity) : Bool :=
  if opp.confidence_score < 7 / 10 then false
  else if opp.risk_reward_ratio < 3 / 2 then false
  else if ms.paper_broker.available_margin < ms.max_position_size then false
  else true

/-- `_check_position_limits` (lines 232-243). -/
def checkPositionLimits (ms : ManagerState) (strategy_id : String) : Bool :=
  (ms.active_trades.countP
      (fun kv => kv.2.strategy_id = strategy_id ∧ kv.2.status = "OPEN")) <
    ms.max_positions_per_strategy

/-- `_calculate_position_size` of the manager (lines 245-271). -/
def managerCalculatePositionSize (ms : ManagerState)
    (opp : TradingOpportunity) : ℤ :=
  let available_capital := min ms.paper_broker.available_margin
    ms.max_position_size
  let risk_amount := available_capital * ms.risk_per_trade
  let stop_loss_distance := |opp.entry_price - opp.stop_loss|
  if stop_loss_distance = 0 then 0
  else max (pythonInt (risk_amount / stop_loss_distance)) 1

/-- `_execute_paper_trade` (lines 273-320), with the broker order id `oid`
passed in.  An `InsufficientMargin` raise from `place_order` is caught by
the blanket handler and turns into `False` with no mutation; on success
the trade is recorded before the performance counters are looked up, so a
missing performance entry (a `KeyError`, also caught) still leaves the
placed order and recorded trade behind. -/
def executePaperTrade (ms : ManagerState) (opp : TradingOpportunity)
    (quantity : ℤ) (oid : String) : ManagerState × Bool :=
  let order_side := if opp.signal_type = "BUY" then OrderSide.BUY
    else OrderSide.SELL
  let order : Order :=
    { symbol := opp.symbol, side := order_side, order_type := .MARKET,
      quantity := quantity, price := opp.entry_price }
  match placeOrder ms.paper_broker order oid with
  | (_, .insufficientMargin) => (ms, false)
  | (broker', .ok virtual_order_id) =>
      let trade : StrategyTrade :=
        { trade_id := virtual_order_id, strategy_id := opp.strategy_id,
          symbol := opp.symbol, order_side := order_side,
          entry_price := opp.entry_price, quantity := quantity }
      match dictLookup ms.strategy_performances opp.strategy_id with
      | some perf =>
          ({ ms with
              paper_broker := broker'
              strategy_trades := ms.strategy_trades ++ [trade]
              active_trades := dictInsert ms.active_trades trade.trade_id trade
              strategy_performances :=
                (dictInsert ms.strategy_performances opp.strategy_id
                  { perf with
                      total_trades := perf.total_trades + 1
                      active_positions := perf.active_positions + 1 }) },
            true)
      | none =>
          ({ ms with
              paper_broker := broker'
              strategy_trades := ms.strategy_trades ++ [trade]
              active_trades := dictInsert ms.active_trades trade.trade_id
                trade },
            false)

/-- `_process_opportunity` (lines 160-208): membership check, risk
validation, position limit, sizing, then execution. -/
def processOpportunity (ms : ManagerState) (opp : TradingOpportunity)
    (oid : String) : ManagerState × Bool :=
  if (dictLookup ms.strategy_performances opp.strategy_id).isNone then
    (ms, false)
  else if !(validateTradeRisk ms opp) then (ms, false)
  else if !(checkPositionLimits ms opp.strategy_id) then (ms, false)
  else
    let position_size := managerCalculatePositionSize ms opp
    if position_size ≤ 0 then (ms, false)
    else executePaperTrade ms opp position_size oid

/-- C8.  An opportunity with confidence below 0.7 or risk-reward below 1.5
is skipped by `_process_opportunity`: it returns `False` and the whole
manager state — broker (so no order is placed), trade records, active
trades, performance counters — is unchanged. -/
theorem low_confidence_or_low_rr_is_skipped
    (ms : ManagerState) (opp : TradingOpportunity) (oid : String)
    (h : opp.confidence_score < 7 / 10 ∨ opp.risk_reward_ratio < 3 / 2) :
    processOpportunity ms opp oid = (ms, false) := by
  rw [processOpportunity]
  split
  · rfl
  · have hv : validateTradeRisk ms opp = false := by
      rw [validateTradeRisk]
      rcases h with h | h
      · rw [if_pos h]
      · rcases lt_or_le opp.confidence_score (7 / 10) with hc | hc
        · rw [if_pos hc]
        · rw [if_neg (not_lt.mpr hc), if_pos h]
    rw [hv]
    simp

/-- A small manager state over a fresh broker, used to witness C8. -/
def mgrState : ManagerState :=
  { paper_broker := initState 100000 20 0
    strategy_performances := ([("S1",
      { strategy_id := "S1", strategy_name := "RSI" })])
    strategy_trades := []
    active_trades := []
    max_position_size := 10000
    max_positions_per_strategy := 3
    risk_per_trade := 2 / 100 }

/-- A tracked-strategy opportunity whose confidence 0.5 is below the 0.7
hard minimum. -/
def lowConfOpp : TradingOpportunity :=
  { symbol := "TCS", strategy_id := "S1", signal_type := "BUY",
    confidence_score := 1 / 2, risk_reward_ratio := 2,
    entry_price := 100, stop_loss := 98, target_price := 104 }

/-- Witness for C8: the low-confidence opportunity is skipped with the
manager state untouched. -/
theorem low_confidence_or_low_rr_is_skipped_witness :
    (lowConfOpp.confidence_score < 7 / 10 ∨
      lowConfOpp.risk_reward_ratio < 3 / 2) ∧
    processOpportunity mgrState lowConfOpp "PAPER_A" = (mgrState, false) :=
  ⟨Or.inl (by norm_num [lowConfOpp]),
   low_confidence_or_low_rr_is_skipped mgrState lowConfOpp "PAPER_A"
     (Or.inl (by norm_num [lowConfOpp]))⟩

/-- `market_scanner.py` `_scan_stock_batch` (lines 283-309).  The
`asyncio.gather(..., return_exceptions=True)` outcome of each symbol's
`_scan_single_stock` is either a raised exception (`Except.error`), no
opportunity (`Except.ok none`) or one opportunity (`Except.ok (some _)`);
exceptions are logged and skipped, the rest are collected in order. -/
def scanStockBatch
    (batch_results : List (Except String (Option TradingOpportunity))) :
    List TradingOpportunity :=
  match batch_results with
  | [] => []
  | .error _ :: rest => scanStockBatch rest
  | .ok none :: rest => scanStockBatch rest
  | .ok (some opp) :: rest => opp :: scanStockBatch rest

/-- C9.  One failing symbol never aborts the batch: dropping a raised
per-symbol exception anywhere in the gathered results leaves the batch
outcome exactly the opportunities contributed by the other symbols. -/
theorem failing_symbol_is_excluded_others_still_contribute
    (xs ys : List (Except String (Option TradingOpportunity))) (e : String) :
    scanStockBatch (xs ++ .error e :: ys) = scanStockBatch (xs ++ ys) := by
  induction xs with
  | nil => simp [scanStockBatch]
  | cons x rest ih =>
      cases x with
      | error msg => simpa [scanStockBatch] using ih
      | ok o => cases o <;> simp [scanStockBatch, ih]

end Dhaan
